import Mathlib

/-!
Shallow embedding of the battle/progression engine of
`demon_baton_bot_full_fixed.py` (plus `utils/__init__.py`), and proofs
about it.  Machine integers of the source are modelled as `ℕ`/`ℤ`;
Python floats appearing in stat formulas (`* 1.5`, `* 0.5`, `* 0.3`,
`random.random()`) are modelled as `ℚ` with exact arithmetic; Python's
floor division `//` is modelled as `Int.floor` of the exact quotient.
A stream of `random.random()` draws is modelled as a function
`ℕ → ℚ`, consumed left to right exactly in the order the source draws.
-/

/-- Player snapshot: the columns of the `Player` model that the embedded
operations read or write (`level`, `experience`, the four base
attributes, health/energy pools, currency, crafting progress). -/
structure PlayerS where
  level : ℕ
  experience : ℕ
  strength : ℕ
  agility : ℕ
  intelligence : ℕ
  vitality : ℕ
  health : ℕ
  max_health : ℕ
  energy : ℕ
  max_energy : ℕ
  batons : ℕ
  crafting_level : ℕ
  crafting_experience : ℕ
  deriving Repr, DecidableEq

/-- Embeds `Player.get_next_level_exp`: `int(100 * (self.level ** EXPERIENCE_MULTIPLIER))`
with `EXPERIENCE_MULTIPLIER = 1.5`.  In exact arithmetic
`⌊100 * l^1.5⌋ = ⌊√(10000 * l^3)⌋ = Nat.sqrt (10000 * l^3)`. -/
def get_next_level_exp (level : ℕ) : ℕ :=
  Nat.sqrt (10000 * level ^ 3)

/-- Embeds `PlayerPet.get_next_level_exp`: `int(100 * (self.level ** 1.5))`,
same exact integer form. -/
def pet_get_next_level_exp (level : ℕ) : ℕ :=
  Nat.sqrt (10000 * level ^ 3)

/-- Embeds `utils.calculate_exp_for_level`: `int(100 * (level ** 1.5))`,
same exact integer form. -/
def calculate_exp_for_level (level : ℕ) : ℕ :=
  Nat.sqrt (10000 * level ^ 3)

/-- The `while experience >= get_next_level_exp()` loop body of
`Player.add_experience`: `level += 1` and the fixed per-level grants
`strength/agility/intelligence/vitality += 2`, `max_health += 20`,
`max_energy += 10`.  The `level_up` flag is threaded exactly as in the
source. -/
def levelUpLoop (p : PlayerS) (level_up : Bool) : PlayerS × Bool :=
  if _h : get_next_level_exp p.level ≤ p.experience then
    levelUpLoop
      { p with
        level := p.level + 1
        strength := p.strength + 2
        agility := p.agility + 2
        intelligence := p.intelligence + 2
        vitality := p.vitality + 2
        max_health := p.max_health + 20
        max_energy := p.max_energy + 10 }
      true
  else
    (p, level_up)
termination_by p.experience + 1 - p.level
decreasing_by
  have h1 : p.level ^ 2 ≤ 10000 * p.level ^ 3 := by
    rcases Nat.eq_zero_or_pos p.level with h | h
    · simp [h]
    · have ha : p.level ^ 2 ≤ p.level ^ 3 := Nat.pow_le_pow_right h (by omega)
      have hb : p.level ^ 3 ≤ 10000 * p.level ^ 3 := Nat.le_mul_of_pos_left _ (by omega)
      omega
  have h2 : Nat.sqrt (p.level ^ 2) ≤ Nat.sqrt (10000 * p.level ^ 3) :=
    Nat.sqrt_le_sqrt h1
  rw [Nat.sqrt_eq'] at h2
  have h3 : p.level ≤ get_next_level_exp p.level := h2
  omega

/-- Embeds `Player.add_experience(amount)`: add the grant to `experience`, then
run the level-up loop, returning the updated player and the flag. -/
def add_experience (p : PlayerS) (amount : ℕ) : PlayerS × Bool :=
  levelUpLoop { p with experience := p.experience + amount } false

/-- The per-slot bonus columns of the `Item` model used by
`Player.get_total_stats`. -/
structure ItemB where
  strength_bonus : ℤ
  agility_bonus : ℤ
  intelligence_bonus : ℤ
  vitality_bonus : ℤ
  health_bonus : ℤ
  energy_bonus : ℤ
  damage_bonus : ℤ
  defense_bonus : ℤ
  deriving Repr, DecidableEq

/-- A `PlayerBuff` row: expiry instant plus its `stat_bonuses` JSON
mapping, kept as an association list of stat name and bonus. -/
structure BuffS where
  expires_at : ℚ
  stat_bonuses : List (String × ℚ)

/-- The `total_stats` dictionary built by `Player.get_total_stats`. -/
structure Stats where
  strength : ℚ
  agility : ℚ
  intelligence : ℚ
  vitality : ℚ
  health : ℚ
  energy : ℚ
  damage : ℚ
  defense : ℚ
  critical_chance : ℚ
  dodge_chance : ℚ
  deriving Repr, DecidableEq

/-- The initial dictionary of `get_total_stats`: base attributes, the
pools, and the derived formulas `damage = strength * 2`,
`defense = vitality * 1.5`, `critical_chance = agility * 0.5`,
`dodge_chance = agility * 0.3`. -/
def baseStats (p : PlayerS) : Stats :=
  { strength := p.strength
    agility := p.agility
    intelligence := p.intelligence
    vitality := p.vitality
    health := p.max_health
    energy := p.max_energy
    damage := p.strength * 2
    defense := p.vitality * (3 / 2)
    critical_chance := p.agility * (1 / 2)
    dodge_chance := p.agility * (3 / 10) }

/-- One equipped item's contribution in `get_total_stats`: the eight
`*_bonus` columns are added to the eight corresponding dictionary keys;
`critical_chance` and `dodge_chance` have no item bonus column and are
left untouched. -/
def applyItem (s : Stats) (it : ItemB) : Stats :=
  { s with
    strength := s.strength + it.strength_bonus
    agility := s.agility + it.agility_bonus
    intelligence := s.intelligence + it.intelligence_bonus
    vitality := s.vitality + it.vitality_bonus
    health := s.health + it.health_bonus
    energy := s.energy + it.energy_bonus
    damage := s.damage + it.damage_bonus
    defense := s.defense + it.defense_bonus }

/-- One buff dictionary entry: `if stat in total_stats:
total_stats[stat] += bonus` — an unknown stat name is ignored. -/
def applyBuffEntry (s : Stats) (stat : String) (bonus : ℚ) : Stats :=
  if stat = "strength" then { s with strength := s.strength + bonus }
  else if stat = "agility" then { s with agility := s.agility + bonus }
  else if stat = "intelligence" then { s with intelligence := s.intelligence + bonus }
  else if stat = "vitality" then { s with vitality := s.vitality + bonus }
  else if stat = "health" then { s with health := s.health + bonus }
  else if stat = "energy" then { s with energy := s.energy + bonus }
  else if stat = "damage" then { s with damage := s.damage + bonus }
  else if stat = "defense" then { s with defense := s.defense + bonus }
  else if stat = "critical_chance" then { s with critical_chance := s.critical_chance + bonus }
  else if stat = "dodge_chance" then { s with dodge_chance := s.dodge_chance + bonus }
  else s

/-- All entries of one buff's `stat_bonuses`. -/
def applyBuff (s : Stats) (b : BuffS) : Stats :=
  b.stat_bonuses.foldl (fun t e => applyBuffEntry t e.1 e.2) s

/-- Embeds `Player.get_total_stats`: base formulas, then equipment bonuses,
then every not-yet-expired buff (`expires_at > now`). -/
def get_total_stats (p : PlayerS) (items : List ItemB) (buffs : List BuffS)
    (now : ℚ) : Stats :=
  (buffs.filter (fun b => now < b.expires_at)).foldl applyBuff
    (items.foldl applyItem (baseStats p))

/-- Total bonus carried by a list of buff entries for one stat name. -/
def entriesSum (es : List (String × ℚ)) (stat : String) : ℚ :=
  ((es.filter (fun e => e.1 = stat)).map (fun e => e.2)).sum

/-- Total bonus of the active buffs for one stat name. -/
def buffsSum (buffs : List BuffS) (stat : String) (now : ℚ) : ℚ :=
  ((buffs.filter (fun b => now < b.expires_at)).map
    (fun b => entriesSum b.stat_bonuses stat)).sum

/-- Python floor division by two (`x // 2`), on `ℚ` (covers both the
`int // int` and `float // int` uses in the combat loops). -/
def floorHalf (q : ℚ) : ℚ := ((⌊q / 2⌋ : ℤ) : ℚ)

/-- Embeds `max(1, attacker_damage - defender_defense // 2)`. -/
def baseDamage (atk defe : ℚ) : ℚ := max 1 (atk - floorHalf defe)

/-- A hit with a critical roll: the damage above, doubled when the draw
falls under `critChance / 100` (`random.random() < chance / 100`
followed by `damage *= 2`). -/
def hitDamage (atk defe critDraw critChance : ℚ) : ℚ :=
  if critDraw < critChance / 100 then baseDamage atk defe * 2
  else baseDamage atk defe

/-- The `Monster` columns the embedded operations read. -/
structure MonsterS where
  level : ℕ
  health : ℤ
  damage : ℤ
  defense : ℤ
  experience_reward : ℕ
  baton_reward_min : ℕ
  baton_reward_max : ℕ
  drop_table : List (ℕ × ℚ)
  deriving Repr

/-- Running state of a player-versus-monster loop: the two health
totals plus the index of the next unconsumed rng draw. -/
structure BState where
  player_hp : ℚ
  monster_hp : ℚ
  next : ℕ
  deriving Repr, DecidableEq

/-- One round of `battle_calculation`: the player's hit (critical roll,
no dodge roll for the monster) lands unconditionally; then, if the
monster is still above zero, its counter-attack (no critical roll) is
applied unless the player's dodge roll succeeds. -/
def battleRound (s : Stats) (m : MonsterS) (rng : ℕ → ℚ) (st : BState) : BState :=
  let player_damage := hitDamage s.damage (m.defense : ℚ) (rng st.next) s.critical_chance
  let mh := st.monster_hp - player_damage
  if 0 < mh then
    let monster_damage := baseDamage (m.damage : ℚ) s.defense
    if rng (st.next + 1) < s.dodge_chance / 100 then
      { player_hp := st.player_hp, monster_hp := mh, next := st.next + 2 }
    else
      { player_hp := st.player_hp - monster_damage, monster_hp := mh, next := st.next + 2 }
  else
    { player_hp := st.player_hp, monster_hp := mh, next := st.next + 1 }

/-- Final state of a combat loop: both health totals and the number of
rounds executed. -/
structure LoopOut where
  player_hp : ℚ
  monster_hp : ℚ
  rounds : ℕ
  deriving Repr, DecidableEq

/-- The `while player_hp > 0 and monster_hp > 0 and rounds < 20` loop of
`battle_calculation`, with the remaining round budget as fuel. -/
def battleLoop (s : Stats) (m : MonsterS) (rng : ℕ → ℚ) :
    ℕ → BState → LoopOut
  | 0, st => { player_hp := st.player_hp, monster_hp := st.monster_hp, rounds := 0 }
  | fuel + 1, st =>
    if 0 < st.player_hp ∧ 0 < st.monster_hp then
      let out := battleLoop s m rng fuel (battleRound s m rng st)
      { out with rounds := out.rounds + 1 }
    else
      { player_hp := st.player_hp, monster_hp := st.monster_hp, rounds := 0 }

/-- The dictionary `battle_calculation` returns: `victory` is
`player_hp > 0` at loop exit, whatever made the loop stop. -/
structure BattleResult where
  victory : Bool
  remaining_hp : ℚ
  rounds : ℕ
  deriving Repr, DecidableEq

/-- Embeds `battle_calculation(player, monster)`: run the round loop from the
aggregated stats with `max_rounds = 20`. -/
def battle_calculation (s : Stats) (m : MonsterS) (rng : ℕ → ℚ) : BattleResult :=
  let out := battleLoop s m rng 20
    { player_hp := s.health, monster_hp := (m.health : ℚ), next := 0 }
  { victory := decide (0 < out.player_hp), remaining_hp := out.player_hp,
    rounds := out.rounds }

/-- One round of `dungeon_battle` on the no-active-pet path
(`pet_effect is None`): textually the same round as
`battle_calculation` — unconditional player hit with critical roll,
then a dodge-only monster counter. -/
def dungeonRound (s : Stats) (m : MonsterS) (rng : ℕ → ℚ) (st : BState) : BState :=
  let player_damage := hitDamage s.damage (m.defense : ℚ) (rng st.next) s.critical_chance
  let mh := st.monster_hp - player_damage
  if 0 < mh then
    let monster_damage := baseDamage (m.damage : ℚ) s.defense
    if rng (st.next + 1) < s.dodge_chance / 100 then
      { player_hp := st.player_hp, monster_hp := mh, next := st.next + 2 }
    else
      { player_hp := st.player_hp - monster_damage, monster_hp := mh, next := st.next + 2 }
  else
    { player_hp := st.player_hp, monster_hp := mh, next := st.next + 1 }

/-- The `dungeon_battle` round loop (no active pet), `max_rounds = 20`. -/
def dungeonLoop (s : Stats) (m : MonsterS) (rng : ℕ → ℚ) :
    ℕ → BState → LoopOut
  | 0, st => { player_hp := st.player_hp, monster_hp := st.monster_hp, rounds := 0 }
  | fuel + 1, st =>
    if 0 < st.player_hp ∧ 0 < st.monster_hp then
      let out := dungeonLoop s m rng fuel (dungeonRound s m rng st)
      { out with rounds := out.rounds + 1 }
    else
      { player_hp := st.player_hp, monster_hp := st.monster_hp, rounds := 0 }

/-- Embeds `dungeon_battle(player, monster)` on the no-active-pet path:
`victory = battle_state['player_hp'] > 0` at loop exit. -/
def dungeon_battle (s : Stats) (m : MonsterS) (rng : ℕ → ℚ) : BattleResult :=
  let out := dungeonLoop s m rng 20
    { player_hp := s.health, monster_hp := (m.health : ℚ), next := 0 }
  { victory := decide (0 < out.player_hp), remaining_hp := out.player_hp,
    rounds := out.rounds }

/-- Running state of the PvP loop. -/
structure PvpState where
  player_hp : ℚ
  opponent_hp : ℚ
  next : ℕ
  deriving Repr, DecidableEq

/-- Final state of the PvP loop. -/
structure PvpOut where
  player_hp : ℚ
  opponent_hp : ℚ
  rounds : ℕ
  deriving Repr, DecidableEq

/-- One round of the `process_pvp_attack` loop: the player's hit
(critical roll) is applied unless the opponent's dodge roll succeeds;
if the opponent is still above zero it counter-attacks under the same
critical and dodge rules with roles reversed. -/
def pvpRound (ps os : Stats) (rng : ℕ → ℚ) (st : PvpState) : PvpState :=
  let player_damage := hitDamage ps.damage os.defense (rng st.next) ps.critical_chance
  let ohp :=
    if rng (st.next + 1) < os.dodge_chance / 100 then st.opponent_hp
    else st.opponent_hp - player_damage
  if 0 < ohp then
    let opponent_damage := hitDamage os.damage ps.defense (rng (st.next + 2)) os.critical_chance
    if rng (st.next + 3) < ps.dodge_chance / 100 then
      { player_hp := st.player_hp, opponent_hp := ohp, next := st.next + 4 }
    else
      { player_hp := st.player_hp - opponent_damage, opponent_hp := ohp, next := st.next + 4 }
  else
    { player_hp := st.player_hp, opponent_hp := ohp, next := st.next + 2 }

/-- The `while player_hp > 0 and opponent_hp > 0 and rounds < 20` loop
of `process_pvp_attack`. -/
def pvpLoop (ps os : Stats) (rng : ℕ → ℚ) : ℕ → PvpState → PvpOut
  | 0, st => { player_hp := st.player_hp, opponent_hp := st.opponent_hp, rounds := 0 }
  | fuel + 1, st =>
    if 0 < st.player_hp ∧ 0 < st.opponent_hp then
      let out := pvpLoop ps os rng fuel (pvpRound ps os rng st)
      { out with rounds := out.rounds + 1 }
    else
      { player_hp := st.player_hp, opponent_hp := st.opponent_hp, rounds := 0 }

/-- Outcome of `process_pvp_attack`: either the energy gate rejects the
request (player snapshot untouched), or the battle runs after the
20-energy debit and `victory = player_hp > 0` at loop exit. -/
inductive PvpResult where
  | rejected (energy : ℕ)
  | fought (energyAfter : ℕ) (player_hp opponent_hp : ℚ) (rounds : ℕ) (victory : Bool)
  deriving Repr, DecidableEq

/-- The combat core of `process_pvp_attack`: the `energy < 20` guard,
the 20-energy debit, then the loop over both aggregated stat blocks. -/
def process_pvp_attack (energy : ℕ) (ps os : Stats) (rng : ℕ → ℚ) : PvpResult :=
  if energy < 20 then .rejected energy
  else
    let out := pvpLoop ps os rng 20
      { player_hp := ps.health, opponent_hp := os.health, next := 0 }
    .fought (energy - 20) out.player_hp out.opponent_hp out.rounds
      (decide (0 < out.player_hp))

/-- A stat block whose holder always dodges (`dodge_chance = 100`),
never crits, and deals 1 damage per hit. -/
def sNimble : Stats :=
  { strength := 0, agility := 0, intelligence := 0, vitality := 0, health := 50,
    energy := 0, damage := 1, defense := 0, critical_chance := 0, dodge_chance := 100 }

/-- A stat block whose holder always crits (`critical_chance = 100`)
and never dodges. -/
def sCritter : Stats :=
  { strength := 0, agility := 0, intelligence := 0, vitality := 0, health := 100,
    energy := 0, damage := 1, defense := 0, critical_chance := 100, dodge_chance := 0 }

/-- A plain monster: 100 health, 10 damage, no defense. -/
def mPlain : MonsterS :=
  { level := 1, health := 100, damage := 10, defense := 0, experience_reward := 0,
    baton_reward_min := 0, baton_reward_max := 0, drop_table := [] }

/-- The rng stream that always draws 0: every `random.random() < c`
check with `c > 0` (every crit and dodge roll the engine makes)
succeeds. -/
def rng0 : ℕ → ℚ := fun _ => 0

/-- Embeds `random.randint(a, b)` (both ends inclusive), modelled by reducing
an arbitrary draw `k` modulo the size of the range. -/
def randint (a b k : ℕ) : ℕ := a + k % (b + 1 - a)

/-- The drop loop of `process_battle_rewards`: one `random.random()`
draw per drop-table entry (in table order); on success the item is
added if the store can resolve it (`session.query(Item).get`). -/
def computeDrops (table : List (ℕ × ℚ)) (itemExists : ℕ → Bool)
    (rng : ℕ → ℚ) (i : ℕ) : List ℕ :=
  match table with
  | [] => []
  | (id, chance) :: rest =>
    let tail := computeDrops rest itemExists rng (i + 1)
    if rng i < chance then (if itemExists id then id :: tail else tail) else tail

/-- The reward record `process_battle_rewards` returns. -/
structure RewardsS where
  experience : ℕ
  batons : ℕ
  level_up : Bool
  dropped_items : List ℕ
  deriving Repr, DecidableEq

/-- Embeds `process_battle_rewards(player, monster)`: grant
`monster.experience_reward` through `add_experience`, credit
`random.randint(baton_reward_min, baton_reward_max)` batons, then run
the drop table as independent `random.random() < chance` trials. -/
def process_battle_rewards (p : PlayerS) (m : MonsterS) (itemExists : ℕ → Bool)
    (batonDraw : ℕ) (rng : ℕ → ℚ) : PlayerS × RewardsS :=
  let exp_reward := m.experience_reward
  let baton_reward := randint m.baton_reward_min m.baton_reward_max batonDraw
  let lr := add_experience p exp_reward
  let p1 := { lr.1 with batons := lr.1.batons + baton_reward }
  let dropped := computeDrops m.drop_table itemExists rng 0
  (p1, { experience := exp_reward, batons := baton_reward,
         level_up := lr.2, dropped_items := dropped })

/-- A plain level-1 player snapshot. -/
def pFresh : PlayerS :=
  { level := 1, experience := 0, strength := 10, agility := 10, intelligence := 10,
    vitality := 10, health := 100, max_health := 100, energy := 100,
    max_energy := 100, batons := 100, crafting_level := 1, crafting_experience := 0 }

/-- A monster whose drop table has a certain entry, another certain
entry and an impossible entry, with currency range 5..7. -/
def mDrops : MonsterS :=
  { level := 1, health := 100, damage := 10, defense := 0, experience_reward := 0,
    baton_reward_min := 5, baton_reward_max := 7,
    drop_table := [(1, 1), (2, 1), (3, 0)] }

/-- The `Dungeon` columns `process_dungeon_selection` reads
(`cooldown` is in hours, `completion_time` in minutes). -/
structure DungeonT where
  min_level : ℕ
  energy_cost : ℕ
  cooldown : ℕ
  completion_time : ℕ
  deriving Repr, DecidableEq

/-- The `current_progress` JSON written on entry. -/
structure RunProgress where
  current_room : ℕ
  monsters_defeated : ℕ
  hp_remaining : ℕ
  start_time : ℚ
  deriving Repr, DecidableEq

/-- A `DungeonProgress` row. -/
structure DungeonProgressS where
  completed_times : ℕ
  best_time : Option ℕ
  last_attempt : Option ℚ
  current_progress : Option RunProgress
  deriving Repr, DecidableEq

/-- Outcome of `process_dungeon_selection` (the found-dungeon path):
both rejections return before any mutation, carrying the snapshot
through unchanged. -/
inductive DungeonEntry where
  | rejectedCooldown (p : PlayerS) (progress : Option DungeonProgressS)
  | rejectedEnergy (p : PlayerS) (progress : Option DungeonProgressS)
  | entered (p : PlayerS) (progress : DungeonProgressS)
  deriving Repr, DecidableEq

/-- The cooldown gate: `if progress and progress.last_attempt:` then
reject while `utcnow() < last_attempt + timedelta(hours=cooldown)`
(time in seconds). -/
def onCooldown (progress : Option DungeonProgressS) (d : DungeonT) (now : ℚ) : Bool :=
  match progress with
  | some pr =>
    match pr.last_attempt with
    | some t => decide (now < t + d.cooldown * 3600)
    | none => false
  | none => false

/-- Embeds `process_dungeon_selection`: cooldown gate, then the energy gate,
then the entry itself — `energy -= energy_cost`, a fresh progress row
if none exists (`completed_times = 0`), `last_attempt = now` and
`current_progress` reset to room 0 with the player's health snapshot. -/
def process_dungeon_selection (p : PlayerS) (d : DungeonT)
    (progress : Option DungeonProgressS) (now : ℚ) : DungeonEntry :=
  if onCooldown progress d now then .rejectedCooldown p progress
  else if p.energy < d.energy_cost then .rejectedEnergy p progress
  else
    let base :=
      match progress with
      | some pr => pr
      | none =>
        { completed_times := 0, best_time := none, last_attempt := none,
          current_progress := none }
    .entered { p with energy := p.energy - d.energy_cost }
      { base with
        last_attempt := some now
        current_progress := some
          { current_room := 0, monsters_defeated := 0, hp_remaining := p.health,
            start_time := now } }

/-- A small dungeon: entry costs 10 energy, 1 hour cooldown. -/
def dSmall : DungeonT :=
  { min_level := 1, energy_cost := 10, cooldown := 1, completion_time := 30 }

/-- A progress row whose last attempt happened at time 0. -/
def prAttempted : DungeonProgressS :=
  { completed_times := 2, best_time := some 300, last_attempt := some 0,
    current_progress := none }

/-- The `Recipe` columns `create_item` reads; `materials` is the
`{material_id: required_qty}` JSON as an association list in iteration
order. -/
structure RecipeS where
  energy_cost : ℕ
  materials : List (ℕ × ℕ)
  result_item_id : ℕ
  result_quantity : ℕ
  experience : ℕ
  deriving Repr, DecidableEq

/-- The player's inventory rows for this player: `(item_id, quantity)`
pairs; `session.query(Inventory).filter_by(...).first()` is the first
matching row. -/
def invGet (inv : List (ℕ × ℕ)) (id : ℕ) : Option ℕ :=
  (inv.find? (fun e => e.1 == id)).map (fun e => e.2)

/-- Embeds `inventory_item.quantity -= required_qty`, followed by
`session.delete` when the quantity reaches 0 — applied to the first
matching row. -/
def invDebit : List (ℕ × ℕ) → ℕ → ℕ → List (ℕ × ℕ)
  | [], _, _ => []
  | (j, q) :: rest, id, req =>
    if j = id then (if q - req = 0 then rest else (j, q - req) :: rest)
    else (j, q) :: invDebit rest id req

/-- Embeds `existing_item.quantity += qty`, or a new row appended when the
item is not yet in the inventory. -/
def invAdd : List (ℕ × ℕ) → ℕ → ℕ → List (ℕ × ℕ)
  | [], id, qty => [(id, qty)]
  | (j, q) :: rest, id, qty =>
    if j = id then (j, q + qty) :: rest else (j, q) :: invAdd rest id qty

/-- The material loop of `create_item`: each material is checked and —
crucially — debited inside the same iteration, so a failure on a later
material returns with the earlier debits already applied to the
inventory. -/
def consumeMaterials : List (ℕ × ℕ) → List (ℕ × ℕ) → Bool × List (ℕ × ℕ)
  | [], inv => (true, inv)
  | (id, req) :: rest, inv =>
    match invGet inv id with
    | none => (false, inv)
    | some q =>
      if q < req then (false, inv)
      else consumeMaterials rest (invDebit inv id req)

/-- Outcome of `create_item`, carrying the player and inventory state
as of the early `return` (or the success). -/
inductive CraftResult where
  | insufficientEnergy (p : PlayerS) (inv : List (ℕ × ℕ))
  | insufficientMaterials (p : PlayerS) (inv : List (ℕ × ℕ))
  | crafted (p : PlayerS) (inv : List (ℕ × ℕ))
  deriving Repr, DecidableEq

/-- Embeds `create_item(recipe)`: the energy gate, then the
check-and-debit material loop, then the crafted item is added, energy
debited and crafting experience credited.  (The crafting-level loop
that follows calls `get_next_crafting_level_exp`, a helper absent from
the repository; `crafting_level` is carried through unchanged here —
no claim touches it.) -/
def create_item (p : PlayerS) (r : RecipeS) (inv : List (ℕ × ℕ)) : CraftResult :=
  if p.energy < r.energy_cost then .insufficientEnergy p inv
  else
    match consumeMaterials r.materials inv with
    | (false, inv1) => .insufficientMaterials p inv1
    | (true, inv1) =>
      .crafted
        { p with
          energy := p.energy - r.energy_cost
          crafting_experience := p.crafting_experience + r.experience }
        (invAdd inv1 r.result_item_id r.result_quantity)

/-- A recipe needing one unit each of materials 1 and 2. -/
def rTwoMats : RecipeS :=
  { energy_cost := 5, materials := [(1, 1), (2, 1)], result_item_id := 9,
    result_quantity := 1, experience := 10 }

/-- The threshold dominates the level, which bounds the level-up loop. -/
theorem level_le_get_next_level_exp (l : ℕ) : l ≤ get_next_level_exp l := by
  have h1 : l * l ≤ 10000 * l ^ 3 := by
    rcases Nat.eq_zero_or_pos l with h | h
    · subst h; simp
    · have ha : l * l ≤ l ^ 3 := by
        have : l ^ 2 ≤ l ^ 3 := Nat.pow_le_pow_right h (by omega)
        calc l * l = l ^ 2 := by ring
        _ ≤ l ^ 3 := this
      have hb : l ^ 3 ≤ 10000 * l ^ 3 := Nat.le_mul_of_pos_left _ (by omega)
      omega
  have h1' : l ^ 2 ≤ 10000 * l ^ 3 := by
    calc l ^ 2 = l * l := by ring
    _ ≤ 10000 * l ^ 3 := h1
  have h2 : Nat.sqrt (l ^ 2) ≤ Nat.sqrt (10000 * l ^ 3) := Nat.sqrt_le_sqrt h1'
  unfold get_next_level_exp
  rwa [Nat.sqrt_eq'] at h2

theorem levelUpLoop_spec :
    ∀ n p b, p.experience + 1 - p.level ≤ n →
      p.level ≤ (levelUpLoop p b).1.level ∧
      (levelUpLoop p b).1.experience = p.experience ∧
      (levelUpLoop p b).1.experience < get_next_level_exp (levelUpLoop p b).1.level ∧
      (levelUpLoop p b).1.strength = p.strength + 2 * ((levelUpLoop p b).1.level - p.level) ∧
      (levelUpLoop p b).1.agility = p.agility + 2 * ((levelUpLoop p b).1.level - p.level) ∧
      (levelUpLoop p b).1.intelligence = p.intelligence + 2 * ((levelUpLoop p b).1.level - p.level) ∧
      (levelUpLoop p b).1.vitality = p.vitality + 2 * ((levelUpLoop p b).1.level - p.level) ∧
      (levelUpLoop p b).1.max_health = p.max_health + 20 * ((levelUpLoop p b).1.level - p.level) ∧
      (levelUpLoop p b).1.max_energy = p.max_energy + 10 * ((levelUpLoop p b).1.level - p.level) ∧
      (levelUpLoop p b).1.health = p.health ∧
      (levelUpLoop p b).1.energy = p.energy ∧
      (levelUpLoop p b).1.batons = p.batons := by
  intro n
  induction n with
  | zero =>
    intro p b hle
    have hth := level_le_get_next_level_exp p.level
    have hcond : ¬ get_next_level_exp p.level ≤ p.experience := by omega
    rw [levelUpLoop.eq_def, dif_neg hcond]
    dsimp only
    exact ⟨le_refl _, rfl, by omega, by omega, by omega, by omega, by omega,
      by omega, by omega, rfl, rfl, rfl⟩
  | succ n ih =>
    intro p b hle
    by_cases hcond : get_next_level_exp p.level ≤ p.experience
    · have hth := level_le_get_next_level_exp p.level
      have hm : p.experience + 1 - (p.level + 1) ≤ n := by omega
      have hrec := ih { p with
        level := p.level + 1, strength := p.strength + 2, agility := p.agility + 2,
        intelligence := p.intelligence + 2, vitality := p.vitality + 2,
        max_health := p.max_health + 20, max_energy := p.max_energy + 10 } true
        (by dsimp only; omega)
      dsimp only at hrec
      obtain ⟨h1, h2, h3, h4, h5, h6, h7, h8, h9, h10, h11, h12⟩ := hrec
      rw [levelUpLoop.eq_def, dif_pos hcond]
      refine ⟨by omega, h2, h3, by omega, by omega, by omega, by omega, by omega,
        by omega, h10, h11, h12⟩
    · rw [levelUpLoop.eq_def, dif_neg hcond]
      dsimp only
      exact ⟨le_refl _, rfl, by omega, by omega, by omega, by omega, by omega,
        by omega, by omega, rfl, rfl, rfl⟩

/-- C4: for every player and every (non-negative, here `ℕ`) experience
grant, `add_experience` applies level-ups repeatedly while
`experience ≥ threshold(level)`; each level-up grants exactly
+2 strength, +2 agility, +2 intelligence, +2 vitality, +20 max health
and +10 max energy; the level never decreases; and afterwards
`experience < threshold(level)` holds. -/
theorem C4_add_experience_progression (p : PlayerS) (amount : ℕ) :
    p.level ≤ (add_experience p amount).1.level ∧
    (add_experience p amount).1.experience = p.experience + amount ∧
    (add_experience p amount).1.experience
      < get_next_level_exp (add_experience p amount).1.level ∧
    (add_experience p amount).1.strength
      = p.strength + 2 * ((add_experience p amount).1.level - p.level) ∧
    (add_experience p amount).1.agility
      = p.agility + 2 * ((add_experience p amount).1.level - p.level) ∧
    (add_experience p amount).1.intelligence
      = p.intelligence + 2 * ((add_experience p amount).1.level - p.level) ∧
    (add_experience p amount).1.vitality
      = p.vitality + 2 * ((add_experience p amount).1.level - p.level) ∧
    (add_experience p amount).1.max_health
      = p.max_health + 20 * ((add_experience p amount).1.level - p.level) ∧
    (add_experience p amount).1.max_energy
      = p.max_energy + 10 * ((add_experience p amount).1.level - p.level) := by
  have h := levelUpLoop_spec (p.experience + amount + 1)
    { p with experience := p.experience + amount } false (by dsimp only; omega)
  dsimp only at h
  obtain ⟨h1, h2, h3, h4, h5, h6, h7, h8, h9, _, _, _⟩ := h
  unfold add_experience
  exact ⟨h1, h2, h3, h4, h5, h6, h7, h8, h9⟩

/-- C8: players, companions and the utility helper share the identical
next-level experience curve `⌊100 · L^1.5⌋`, here in the exact integer
form `Nat.sqrt (10000 · L³)`; the last two conjuncts certify that this
value really is the integer part of `√(10000 · L³) = 100 · L^1.5`. -/
theorem C8_shared_exp_curve (L : ℕ) :
    get_next_level_exp L = pet_get_next_level_exp L ∧
    get_next_level_exp L = calculate_exp_for_level L ∧
    (calculate_exp_for_level L) ^ 2 ≤ 10000 * L ^ 3 ∧
    10000 * L ^ 3 < (calculate_exp_for_level L + 1) ^ 2 := by
  refine ⟨rfl, rfl, ?_, ?_⟩
  · simpa [calculate_exp_for_level, pow_two] using Nat.sqrt_le' (10000 * L ^ 3)
  · simpa [calculate_exp_for_level, pow_two, Nat.succ_eq_add_one] using
      Nat.lt_succ_sqrt' (10000 * L ^ 3)

theorem foldl_applyItem_field (f : Stats → ℚ) (g : ItemB → ℚ)
    (hf : ∀ s it, f (applyItem s it) = f s + g it) :
    ∀ (items : List ItemB) (s : Stats),
      f (items.foldl applyItem s) = f s + (items.map g).sum := by
  intro items
  induction items with
  | nil => intro s; simp
  | cons it rest ih =>
    intro s
    simp only [List.foldl_cons, List.map_cons, List.sum_cons, ih, hf]
    ring

theorem foldl_buffEntry_field (f : Stats → ℚ) (stat : String)
    (hf : ∀ s n v, f (applyBuffEntry s n v) = f s + (if n = stat then v else 0)) :
    ∀ (es : List (String × ℚ)) (s : Stats),
      f (es.foldl (fun t e => applyBuffEntry t e.1 e.2) s) = f s + entriesSum es stat := by
  intro es
  induction es with
  | nil => intro s; simp [entriesSum]
  | cons e rest ih =>
    intro s
    by_cases h : e.1 = stat
    · simp only [List.foldl_cons, ih, hf, h, if_true, entriesSum, List.filter_cons,
        decide_eq_true_eq, if_pos h, List.map_cons, List.sum_cons]
      simp [entriesSum] at ih ⊢
      ring
    · simp only [List.foldl_cons, ih, hf, h, if_false, entriesSum, List.filter_cons]
      simp [h, entriesSum]

theorem foldl_applyBuff_field (f : Stats → ℚ) (stat : String)
    (hf : ∀ s n v, f (applyBuffEntry s n v) = f s + (if n = stat then v else 0)) :
    ∀ (bs : List BuffS) (s : Stats),
      f (bs.foldl applyBuff s)
        = f s + (bs.map (fun b => entriesSum b.stat_bonuses stat)).sum := by
  intro bs
  induction bs with
  | nil => intro s; simp
  | cons b rest ih =>
    intro s
    simp only [List.foldl_cons, ih, List.map_cons, List.sum_cons, applyBuff,
      foldl_buffEntry_field f stat hf]
    ring

set_option maxHeartbeats 2000000 in
theorem applyBuffEntry_strength (s : Stats) (n : String) (v : ℚ) :
    (applyBuffEntry s n v).strength = s.strength + (if n = "strength" then v else 0) := by
  unfold applyBuffEntry
  split_ifs <;> simp_all

set_option maxHeartbeats 2000000 in
theorem applyBuffEntry_damage (s : Stats) (n : String) (v : ℚ) :
    (applyBuffEntry s n v).damage = s.damage + (if n = "damage" then v else 0) := by
  unfold applyBuffEntry
  split_ifs <;> simp_all

set_option maxHeartbeats 2000000 in
theorem applyBuffEntry_defense (s : Stats) (n : String) (v : ℚ) :
    (applyBuffEntry s n v).defense = s.defense + (if n = "defense" then v else 0) := by
  unfold applyBuffEntry
  split_ifs <;> simp_all

set_option maxHeartbeats 2000000 in
theorem applyBuffEntry_critical (s : Stats) (n : String) (v : ℚ) :
    (applyBuffEntry s n v).critical_chance
      = s.critical_chance + (if n = "critical_chance" then v else 0) := by
  unfold applyBuffEntry
  split_ifs <;> simp_all

set_option maxHeartbeats 2000000 in
theorem applyBuffEntry_dodge (s : Stats) (n : String) (v : ℚ) :
    (applyBuffEntry s n v).dodge_chance
      = s.dodge_chance + (if n = "dodge_chance" then v else 0) := by
  unfold applyBuffEntry
  split_ifs <;> simp_all

/-- C9: in `get_total_stats`, the four derived stats are computed from
the unequipped base attributes only: `damage` is
`base strength × 2` plus the items' explicit `damage_bonus` columns plus
buff entries named `damage` — an item's `strength_bonus` (and the other
attribute bonuses) never feeds into it; likewise `defense` from
`vitality × 1.5` with `defense_bonus`, and `critical_chance` /
`dodge_chance` from base agility with only same-named buff entries
(items have no bonus column for them at all).  The final conjunct shows
the aggregated `strength` total does absorb `strength_bonus`, so the
attribute totals rise while the derived totals ignore them. -/
theorem C9_derived_stats_ignore_item_attribute_bonuses
    (p : PlayerS) (items : List ItemB) (buffs : List BuffS) (now : ℚ) :
    (get_total_stats p items buffs now).damage
      = p.strength * 2 + (items.map (fun it => (it.damage_bonus : ℚ))).sum
        + buffsSum buffs "damage" now ∧
    (get_total_stats p items buffs now).defense
      = p.vitality * (3 / 2) + (items.map (fun it => (it.defense_bonus : ℚ))).sum
        + buffsSum buffs "defense" now ∧
    (get_total_stats p items buffs now).critical_chance
      = p.agility * (1 / 2) + buffsSum buffs "critical_chance" now ∧
    (get_total_stats p items buffs now).dodge_chance
      = p.agility * (3 / 10) + buffsSum buffs "dodge_chance" now ∧
    (get_total_stats p items buffs now).strength
      = p.strength + (items.map (fun it => (it.strength_bonus : ℚ))).sum
        + buffsSum buffs "strength" now := by
  unfold get_total_stats buffsSum
  refine ⟨?_, ?_, ?_, ?_, ?_⟩
  · rw [foldl_applyBuff_field (fun s => s.damage) "damage" applyBuffEntry_damage,
      foldl_applyItem_field (fun s => s.damage) (fun it => (it.damage_bonus : ℚ))
        (fun s it => by simp [applyItem])]
    simp [baseStats]
  · rw [foldl_applyBuff_field (fun s => s.defense) "defense" applyBuffEntry_defense,
      foldl_applyItem_field (fun s => s.defense) (fun it => (it.defense_bonus : ℚ))
        (fun s it => by simp [applyItem])]
    simp [baseStats]
  · rw [foldl_applyBuff_field (fun s => s.critical_chance) "critical_chance"
        applyBuffEntry_critical,
      foldl_applyItem_field (fun s => s.critical_chance) (fun _ => (0 : ℚ))
        (fun s it => by simp [applyItem])]
    simp [baseStats]
  · rw [foldl_applyBuff_field (fun s => s.dodge_chance) "dodge_chance"
        applyBuffEntry_dodge,
      foldl_applyItem_field (fun s => s.dodge_chance) (fun _ => (0 : ℚ))
        (fun s it => by simp [applyItem])]
    simp [baseStats]
  · rw [foldl_applyBuff_field (fun s => s.strength) "strength" applyBuffEntry_strength,
      foldl_applyItem_field (fun s => s.strength) (fun it => (it.strength_bonus : ℚ))
        (fun s it => by simp [applyItem])]
    simp [baseStats]

theorem battleRound_alive (s : Stats) (m : MonsterS) (rng : ℕ → ℚ) (st : BState)
    (h : 0 < st.player_hp) :
    0 < (battleRound s m rng st).player_hp ∨ 0 < (battleRound s m rng st).monster_hp := by
  unfold battleRound
  dsimp only
  split_ifs with h1 h2
  · right; exact h1
  · right; exact h1
  · left; exact h

theorem battleLoop_alive (s : Stats) (m : MonsterS) (rng : ℕ → ℚ) :
    ∀ (fuel : ℕ) (st : BState), 0 < st.player_hp ∨ 0 < st.monster_hp →
      0 < (battleLoop s m rng fuel st).player_hp ∨
      0 < (battleLoop s m rng fuel st).monster_hp := by
  intro fuel
  induction fuel with
  | zero => intro st h; exact h
  | succ n ih =>
    intro st h
    rw [battleLoop]
    split_ifs with hg
    · exact ih (battleRound s m rng st) (battleRound_alive s m rng st hg.1)
    · exact h

theorem dungeonRound_alive (s : Stats) (m : MonsterS) (rng : ℕ → ℚ) (st : BState)
    (h : 0 < st.player_hp) :
    0 < (dungeonRound s m rng st).player_hp ∨ 0 < (dungeonRound s m rng st).monster_hp := by
  unfold dungeonRound
  dsimp only
  split_ifs with h1 h2
  · right; exact h1
  · right; exact h1
  · left; exact h

theorem dungeonLoop_alive (s : Stats) (m : MonsterS) (rng : ℕ → ℚ) :
    ∀ (fuel : ℕ) (st : BState), 0 < st.player_hp ∨ 0 < st.monster_hp →
      0 < (dungeonLoop s m rng fuel st).player_hp ∨
      0 < (dungeonLoop s m rng fuel st).monster_hp := by
  intro fuel
  induction fuel with
  | zero => intro st h; exact h
  | succ n ih =>
    intro st h
    rw [dungeonLoop]
    split_ifs with hg
    · exact ih (dungeonRound s m rng st) (dungeonRound_alive s m rng st hg.1)
    · exact h

theorem pvpRound_alive (ps os : Stats) (rng : ℕ → ℚ) (st : PvpState)
    (h : 0 < st.player_hp) :
    0 < (pvpRound ps os rng st).player_hp ∨ 0 < (pvpRound ps os rng st).opponent_hp := by
  unfold pvpRound
  dsimp only
  split_ifs <;> first | (left; exact h) | (right; assumption)

theorem pvpLoop_alive (ps os : Stats) (rng : ℕ → ℚ) :
    ∀ (fuel : ℕ) (st : PvpState), 0 < st.player_hp ∨ 0 < st.opponent_hp →
      0 < (pvpLoop ps os rng fuel st).player_hp ∨
      0 < (pvpLoop ps os rng fuel st).opponent_hp := by
  intro fuel
  induction fuel with
  | zero => intro st h; exact h
  | succ n ih =>
    intro st h
    rw [pvpLoop]
    split_ifs with hg
    · exact ih (pvpRound ps os rng st) (pvpRound_alive ps os rng st hg.1)
    · exact h

/-- C10: in every combat resolution the double-knockout state is
unreachable: starting from a state where at least one side is above
zero, the round loop of `battle_calculation`, `dungeon_battle` and
`process_pvp_attack` never exits with both sides at or below zero —
the defender only counter-attacks while its own health is positive, so
the attacker's health can only drop in a round the defender survived. -/
theorem C10_no_double_knockout (ps os : Stats) (m : MonsterS) (rng : ℕ → ℚ)
    (fuel : ℕ) (st : BState) (pst : PvpState)
    (hb : 0 < st.player_hp ∨ 0 < st.monster_hp)
    (hp : 0 < pst.player_hp ∨ 0 < pst.opponent_hp) :
    ¬((battleLoop ps m rng fuel st).player_hp ≤ 0 ∧
      (battleLoop ps m rng fuel st).monster_hp ≤ 0) ∧
    ¬((dungeonLoop ps m rng fuel st).player_hp ≤ 0 ∧
      (dungeonLoop ps m rng fuel st).monster_hp ≤ 0) ∧
    ¬((pvpLoop ps os rng fuel pst).player_hp ≤ 0 ∧
      (pvpLoop ps os rng fuel pst).opponent_hp ≤ 0) := by
  refine ⟨?_, ?_, ?_⟩
  · intro hc
    rcases battleLoop_alive ps m rng fuel st hb with h | h
    · exact absurd hc.1 (not_le.mpr h)
    · exact absurd hc.2 (not_le.mpr h)
  · intro hc
    rcases dungeonLoop_alive ps m rng fuel st hb with h | h
    · exact absurd hc.1 (not_le.mpr h)
    · exact absurd hc.2 (not_le.mpr h)
  · intro hc
    rcases pvpLoop_alive ps os rng fuel pst hp with h | h
    · exact absurd hc.1 (not_le.mpr h)
    · exact absurd hc.2 (not_le.mpr h)

/-- Witness for C10 at a concrete battle. -/
theorem C10_no_double_knockout_witness :
    ¬((battleLoop sNimble mPlain rng0 20
        { player_hp := 50, monster_hp := 100, next := 0 }).player_hp ≤ 0 ∧
      (battleLoop sNimble mPlain rng0 20
        { player_hp := 50, monster_hp := 100, next := 0 }).monster_hp ≤ 0) ∧
    ¬((dungeonLoop sNimble mPlain rng0 20
        { player_hp := 50, monster_hp := 100, next := 0 }).player_hp ≤ 0 ∧
      (dungeonLoop sNimble mPlain rng0 20
        { player_hp := 50, monster_hp := 100, next := 0 }).monster_hp ≤ 0) ∧
    ¬((pvpLoop sNimble sNimble rng0 20
        { player_hp := 50, opponent_hp := 50, next := 0 }).player_hp ≤ 0 ∧
      (pvpLoop sNimble sNimble rng0 20
        { player_hp := 50, opponent_hp := 50, next := 0 }).opponent_hp ≤ 0) :=
  C10_no_double_knockout sNimble sNimble mPlain rng0 20
    { player_hp := 50, monster_hp := 100, next := 0 }
    { player_hp := 50, opponent_hp := 50, next := 0 }
    (by norm_num) (by norm_num)

/-- C1 counterexample: a `battle_calculation` run whose loop reaches
`max_rounds = 20` with both sides still above zero (player 50, monster
80), yet the outcome is not a draw: `victory = player_hp > 0 = True`,
i.e. the player is declared the winner. -/
theorem C1_counterexample_max_rounds_not_a_draw :
    (battleLoop sNimble mPlain rng0 20
      { player_hp := 50, monster_hp := 100, next := 0 }).rounds = 20 ∧
    (battleLoop sNimble mPlain rng0 20
      { player_hp := 50, monster_hp := 100, next := 0 }).player_hp = 50 ∧
    (battleLoop sNimble mPlain rng0 20
      { player_hp := 50, monster_hp := 100, next := 0 }).monster_hp = 80 ∧
    (battle_calculation sNimble mPlain rng0).victory = true ∧
    (battle_calculation sNimble mPlain rng0).rounds = 20 := by
  norm_num [battle_calculation, battleLoop, battleRound, hitDamage, baseDamage,
    floorHalf, sNimble, mPlain, rng0]

/-- C1 (amended): no draw outcome exists.  In all three encounter types
the winner check is solely `player_hp > 0` at loop exit, so when
`max_rounds` is reached with both combatants alive the initiating
player is declared the winner. -/
theorem C1_amended_victory_is_player_hp_positive
    (s os : Stats) (m : MonsterS) (rng : ℕ → ℚ) (energy : ℕ) :
    (0 < (battleLoop s m rng 20
        { player_hp := s.health, monster_hp := (m.health : ℚ), next := 0 }).player_hp →
      (battle_calculation s m rng).victory = true) ∧
    (0 < (dungeonLoop s m rng 20
        { player_hp := s.health, monster_hp := (m.health : ℚ), next := 0 }).player_hp →
      (dungeon_battle s m rng).victory = true) ∧
    (20 ≤ energy →
      0 < (pvpLoop s os rng 20
        { player_hp := s.health, opponent_hp := os.health, next := 0 }).player_hp →
      process_pvp_attack energy s os rng
        = PvpResult.fought (energy - 20)
            (pvpLoop s os rng 20
              { player_hp := s.health, opponent_hp := os.health, next := 0 }).player_hp
            (pvpLoop s os rng 20
              { player_hp := s.health, opponent_hp := os.health, next := 0 }).opponent_hp
            (pvpLoop s os rng 20
              { player_hp := s.health, opponent_hp := os.health, next := 0 }).rounds
            true) := by
  refine ⟨?_, ?_, ?_⟩
  · intro h
    unfold battle_calculation
    dsimp only
    exact decide_eq_true h
  · intro h
    unfold dungeon_battle
    dsimp only
    exact decide_eq_true h
  · intro he h
    unfold process_pvp_attack
    rw [if_neg (by omega : ¬ energy < 20)]
    dsimp only
    rw [decide_eq_true h]

/-- Witness for the amended C1 at concrete inputs. -/
theorem C1_amended_witness :
    (battle_calculation sNimble mPlain rng0).victory = true ∧
    (dungeon_battle sNimble mPlain rng0).victory = true ∧
    process_pvp_attack 20 sNimble sNimble rng0
      = PvpResult.fought (20 - 20)
          (pvpLoop sNimble sNimble rng0 20
            { player_hp := sNimble.health, opponent_hp := sNimble.health, next := 0 }).player_hp
          (pvpLoop sNimble sNimble rng0 20
            { player_hp := sNimble.health, opponent_hp := sNimble.health, next := 0 }).opponent_hp
          (pvpLoop sNimble sNimble rng0 20
            { player_hp := sNimble.health, opponent_hp := sNimble.health, next := 0 }).rounds
          true := by
  obtain ⟨h1, h2, h3⟩ :=
    C1_amended_victory_is_player_hp_positive sNimble sNimble mPlain rng0 20
  refine ⟨h1 ?_, h2 ?_, h3 (le_refl 20) ?_⟩ <;>
    norm_num [battleLoop, battleRound, dungeonLoop, dungeonRound, pvpLoop, pvpRound,
      hitDamage, baseDamage, floorHalf, sNimble, mPlain, rng0]

/-- C2 counterexample: in `battle_calculation` the round rules are not
symmetric.  Run A (`sNimble`, dodge 100): the always-zero rng makes
every dodge roll in the engine succeed — the player indeed ends
untouched at 50 — yet the monster, the defender of every player hit,
evades nothing and drops from 100 to 80: no dodge roll exists for the
monster.  Run B (`sCritter`, crit 100): the same rng doubles every
player hit (the monster loses 2 per round, 100 → 80 over 10 rounds),
but the monster's counter-attack is never doubled — the player loses
exactly 10 per round and reaches 0 after 10 rounds, so the monster's
counter has no critical roll. -/
theorem C2_counterexample_pve_rounds_not_symmetric :
    (battleLoop sNimble mPlain rng0 20
      { player_hp := 50, monster_hp := 100, next := 0 }).player_hp = 50 ∧
    (battleLoop sNimble mPlain rng0 20
      { player_hp := 50, monster_hp := 100, next := 0 }).monster_hp = 80 ∧
    (battleLoop sCritter mPlain rng0 20
      { player_hp := 100, monster_hp := 100, next := 0 }).player_hp = 0 ∧
    (battleLoop sCritter mPlain rng0 20
      { player_hp := 100, monster_hp := 100, next := 0 }).monster_hp = 80 ∧
    (battleLoop sCritter mPlain rng0 20
      { player_hp := 100, monster_hp := 100, next := 0 }).rounds = 10 := by
  norm_num [battleLoop, battleRound, hitDamage, baseDamage, floorHalf,
    sNimble, sCritter, mPlain, rng0]

/-- C2 (amended): the symmetric crit-and-dodge round holds only in PvP
(`process_pvp_attack`).  In the PvE rounds (`battle_calculation` and
`dungeon_battle`) the player's hit always lands — the monster has no
dodge roll — and a monster that survives counter-attacks without a
critical roll; only the monster's counter can be dodged (probability
`player.dodge_chance/100`), a dodge negating the entire hit. -/
theorem C2_amended_dodge_and_counter_rules
    (s ps os : Stats) (m : MonsterS) (rng : ℕ → ℚ) (st : BState) (pst : PvpState) :
    ((battleRound s m rng st).monster_hp
      = st.monster_hp - hitDamage s.damage (m.defense : ℚ) (rng st.next) s.critical_chance) ∧
    (0 < st.monster_hp - hitDamage s.damage (m.defense : ℚ) (rng st.next) s.critical_chance →
      rng (st.next + 1) < s.dodge_chance / 100 →
      (battleRound s m rng st).player_hp = st.player_hp) ∧
    (0 < st.monster_hp - hitDamage s.damage (m.defense : ℚ) (rng st.next) s.critical_chance →
      ¬ rng (st.next + 1) < s.dodge_chance / 100 →
      (battleRound s m rng st).player_hp
        = st.player_hp - baseDamage (m.damage : ℚ) s.defense) ∧
    (st.monster_hp - hitDamage s.damage (m.defense : ℚ) (rng st.next) s.critical_chance ≤ 0 →
      (battleRound s m rng st).player_hp = st.player_hp) ∧
    ((dungeonRound s m rng st).monster_hp
      = st.monster_hp - hitDamage s.damage (m.defense : ℚ) (rng st.next) s.critical_chance) ∧
    (0 < st.monster_hp - hitDamage s.damage (m.defense : ℚ) (rng st.next) s.critical_chance →
      rng (st.next + 1) < s.dodge_chance / 100 →
      (dungeonRound s m rng st).player_hp = st.player_hp) ∧
    (0 < st.monster_hp - hitDamage s.damage (m.defense : ℚ) (rng st.next) s.critical_chance →
      ¬ rng (st.next + 1) < s.dodge_chance / 100 →
      (dungeonRound s m rng st).player_hp
        = st.player_hp - baseDamage (m.damage : ℚ) s.defense) ∧
    (st.monster_hp - hitDamage s.damage (m.defense : ℚ) (rng st.next) s.critical_chance ≤ 0 →
      (dungeonRound s m rng st).player_hp = st.player_hp) ∧
    (rng (pst.next + 1) < os.dodge_chance / 100 →
      (pvpRound ps os rng pst).opponent_hp = pst.opponent_hp) ∧
    (¬ rng (pst.next + 1) < os.dodge_chance / 100 →
      (pvpRound ps os rng pst).opponent_hp
        = pst.opponent_hp - hitDamage ps.damage os.defense (rng pst.next) ps.critical_chance) ∧
    (0 < (pvpRound ps os rng pst).opponent_hp →
      rng (pst.next + 3) < ps.dodge_chance / 100 →
      (pvpRound ps os rng pst).player_hp = pst.player_hp) ∧
    (0 < (pvpRound ps os rng pst).opponent_hp →
      ¬ rng (pst.next + 3) < ps.dodge_chance / 100 →
      (pvpRound ps os rng pst).player_hp
        = pst.player_hp - hitDamage os.damage ps.defense (rng (pst.next + 2)) os.critical_chance) ∧
    ((pvpRound ps os rng pst).opponent_hp ≤ 0 →
      (pvpRound ps os rng pst).player_hp = pst.player_hp) := by
  refine ⟨?_, ?_, ?_, ?_, ?_, ?_, ?_, ?_, ?_, ?_, ?_, ?_, ?_⟩
  · unfold battleRound; dsimp only; split_ifs <;> rfl
  · intro h1 h2; unfold battleRound; dsimp only; rw [if_pos h1, if_pos h2]
  · intro h1 h2; unfold battleRound; dsimp only; rw [if_pos h1, if_neg h2]
  · intro h1; unfold battleRound; dsimp only; rw [if_neg (by linarith : ¬ 0 < st.monster_hp - hitDamage s.damage (m.defense : ℚ) (rng st.next) s.critical_chance)]
  · unfold dungeonRound; dsimp only; split_ifs <;> rfl
  · intro h1 h2; unfold dungeonRound; dsimp only; rw [if_pos h1, if_pos h2]
  · intro h1 h2; unfold dungeonRound; dsimp only; rw [if_pos h1, if_neg h2]
  · intro h1; unfold dungeonRound; dsimp only; rw [if_neg (by linarith : ¬ 0 < st.monster_hp - hitDamage s.damage (m.defense : ℚ) (rng st.next) s.critical_chance)]
  · intro h1; unfold pvpRound; dsimp only; rw [if_pos h1]; split_ifs <;> rfl
  · intro h1; unfold pvpRound; dsimp only; rw [if_neg h1]; split_ifs <;> rfl
  · intro h1 h2
    unfold pvpRound at h1 ⊢
    dsimp only at h1 ⊢
    split_ifs at h1 ⊢ <;>
      first
        | rfl
        | exact absurd h1 (by assumption)
        | exact absurd h2 (by assumption)
        | linarith
  · intro h1 h2
    unfold pvpRound at h1 ⊢
    dsimp only at h1 ⊢
    split_ifs at h1 ⊢ <;>
      first
        | rfl
        | exact absurd h1 (by assumption)
        | exact absurd (by assumption) h2
        | linarith
  · intro h1
    unfold pvpRound at h1 ⊢
    dsimp only at h1 ⊢
    split_ifs at h1 ⊢ <;> dsimp only at h1 ⊢ <;> first | rfl | linarith

/-- C5: the per-hit damage in the PvE loops equals
`max(1, attacker.damage - defender.defense // 2)` — doubled on a
critical roll — and is at least 1 no matter how large the defender's
defense is (the floor applies before the doubling, exactly as
`player_damage = max(1, ...)` then `player_damage *= 2`). -/
theorem C5_damage_floors_at_one (atk defe cd cc : ℚ)
    (s : Stats) (m : MonsterS) (rng : ℕ → ℚ) (st : BState) :
    1 ≤ baseDamage atk defe ∧
    1 ≤ hitDamage atk defe cd cc ∧
    hitDamage atk defe cd cc
      = (if cd < cc / 100 then max 1 (atk - floorHalf defe) * 2
         else max 1 (atk - floorHalf defe)) ∧
    (battleRound s m rng st).monster_hp
      = st.monster_hp
        - hitDamage s.damage (m.defense : ℚ) (rng st.next) s.critical_chance ∧
    (dungeonRound s m rng st).monster_hp
      = st.monster_hp
        - hitDamage s.damage (m.defense : ℚ) (rng st.next) s.critical_chance := by
  have hbase : (1 : ℚ) ≤ baseDamage atk defe := le_max_left 1 _
  refine ⟨hbase, ?_, ?_, ?_, ?_⟩
  · unfold hitDamage
    split_ifs
    · linarith
    · exact hbase
  · unfold hitDamage baseDamage
    rfl
  · unfold battleRound
    dsimp only
    split_ifs <;> rfl
  · unfold dungeonRound
    dsimp only
    split_ifs <;> rfl

theorem computeDrops_of_mem_one (itemExists : ℕ → Bool) (rng : ℕ → ℚ)
    (hr : ∀ j, rng j < 1) :
    ∀ (table : List (ℕ × ℚ)) (i : ℕ) (id : ℕ),
      (id, (1 : ℚ)) ∈ table → itemExists id = true →
      id ∈ computeDrops table itemExists rng i := by
  intro table
  induction table with
  | nil => intro i id hm; exact absurd hm (List.not_mem_nil _)
  | cons e rest ih =>
    intro i id hm hex
    rcases List.mem_cons.mp hm with he | ht
    · unfold computeDrops
      dsimp only
      have h1 : e.1 = id := by rw [← he]
      have h2 : e.2 = (1 : ℚ) := by rw [← he]
      rw [h1, h2, if_pos (by simpa using hr i), hex]
      · exact List.mem_cons_self _ _
    · unfold computeDrops
      dsimp only
      have htail := ih (i + 1) id ht hex
      split_ifs <;> first | exact List.mem_cons_of_mem _ htail | exact htail

theorem computeDrops_of_zero (itemExists : ℕ → Bool) (rng : ℕ → ℚ)
    (hr : ∀ j, 0 ≤ rng j) :
    ∀ (table : List (ℕ × ℚ)) (i : ℕ) (id : ℕ),
      (∀ c, (id, c) ∈ table → c ≤ 0) →
      id ∉ computeDrops table itemExists rng i := by
  intro table
  induction table with
  | nil => intro i id hz hm; exact absurd hm (List.not_mem_nil _)
  | cons e rest ih
  => intro i id hz hm
     have htail := ih (i + 1) id (fun c hc => hz c (List.mem_cons_of_mem _ hc))
     unfold computeDrops at hm
     dsimp only at hm
     split_ifs at hm with h1 h2
     · rcases List.mem_cons.mp hm with he | ht
       · have hmem : (id, e.2) ∈ e :: rest := by rw [he]; simp
         have hle : e.2 ≤ 0 := hz e.2 hmem
         have := hr i
         linarith
       · exact htail ht
     · exact htail hm
     · exact htail hm

/-- C7: in `process_battle_rewards`, the currency award is
`randint(baton_reward_min, baton_reward_max)` — always inside the
inclusive range, and every value of the range is reachable by some
draw (the uniform support) — and each drop-table entry is an
independent Bernoulli trial `random.random() < chance` on its own
draw: an entry with probability 1 always yields its (resolvable) item,
an entry with probability 0 never does, and one kill can drop several
distinct items (last conjunct: a two-entry table yields both). -/
theorem C7_reward_settlement (p : PlayerS) (m : MonsterS)
    (itemExists : ℕ → Bool) (batonDraw : ℕ) (rng : ℕ → ℚ) :
    (m.baton_reward_min ≤ m.baton_reward_max →
      m.baton_reward_min
          ≤ (process_battle_rewards p m itemExists batonDraw rng).2.batons ∧
        (process_battle_rewards p m itemExists batonDraw rng).2.batons
          ≤ m.baton_reward_max) ∧
    (∀ v, m.baton_reward_min ≤ v → v ≤ m.baton_reward_max →
      ∃ k, randint m.baton_reward_min m.baton_reward_max k = v) ∧
    ((∀ j, rng j < 1) →
      ∀ id, (id, (1 : ℚ)) ∈ m.drop_table → itemExists id = true →
        id ∈ (process_battle_rewards p m itemExists batonDraw rng).2.dropped_items) ∧
    ((∀ j, 0 ≤ rng j) →
      ∀ id, (∀ c, (id, c) ∈ m.drop_table → c ≤ 0) →
        id ∉ (process_battle_rewards p m itemExists batonDraw rng).2.dropped_items) ∧
    computeDrops [(1, 1), (2, 1)] (fun _ => true) (fun _ => 0) 0 = [1, 2] := by
  have hb : (process_battle_rewards p m itemExists batonDraw rng).2.batons
      = randint m.baton_reward_min m.baton_reward_max batonDraw := rfl
  have hd : (process_battle_rewards p m itemExists batonDraw rng).2.dropped_items
      = computeDrops m.drop_table itemExists rng 0 := rfl
  refine ⟨?_, ?_, ?_, ?_, ?_⟩
  · intro hle
    rw [hb]
    unfold randint
    have hpos : 0 < m.baton_reward_max + 1 - m.baton_reward_min := by omega
    have := Nat.mod_lt batonDraw hpos
    omega
  · intro v h1 h2
    refine ⟨v - m.baton_reward_min, ?_⟩
    unfold randint
    rw [Nat.mod_eq_of_lt (by omega)]
    omega
  · intro hr id hm hex
    rw [hd]
    exact computeDrops_of_mem_one itemExists rng hr m.drop_table 0 id hm hex
  · intro hr id hz
    rw [hd]
    exact computeDrops_of_zero itemExists rng hr m.drop_table 0 id hz
  · norm_num [computeDrops]

/-- Witness for C7 at concrete inputs. -/
theorem C7_reward_settlement_witness :
    (5 ≤ (process_battle_rewards pFresh mDrops (fun _ => true) 9 rng0).2.batons ∧
      (process_battle_rewards pFresh mDrops (fun _ => true) 9 rng0).2.batons ≤ 7) ∧
    (∃ k, randint 5 7 k = 6) ∧
    1 ∈ (process_battle_rewards pFresh mDrops (fun _ => true) 9 rng0).2.dropped_items ∧
    3 ∉ (process_battle_rewards pFresh mDrops (fun _ => true) 9 rng0).2.dropped_items := by
  obtain ⟨ha, hu, hone, hzero, _⟩ :=
    C7_reward_settlement pFresh mDrops (fun _ => true) 9 rng0
  refine ⟨ha (by norm_num [mDrops]), ?_, ?_, ?_⟩
  · simpa [mDrops] using hu 6 (by norm_num [mDrops]) (by norm_num [mDrops])
  · exact hone (fun j => by norm_num [rng0]) 1 (by simp [mDrops]) rfl
  · refine hzero (fun j => by norm_num [rng0]) 3 ?_
    intro c hc
    simp [mDrops] at hc
    exact le_of_eq hc

/-- C6: dungeon entry is granted exactly when the cooldown has expired
(`now ≥ last_attempt + cooldown`, vacuously when no attempt is on
record) and `energy ≥ dungeon.energy_cost`; a granted entry debits
exactly `energy_cost` and resets progress to room 0 with
`last_attempt := now`; an attempt before the cooldown elapses is
rejected with the player and the whole progress row — in particular
`last_attempt` — unchanged, as is an attempt with too little energy. -/
theorem C6_dungeon_entry_gates (p : PlayerS) (d : DungeonT)
    (progress : Option DungeonProgressS) (now : ℚ) :
    ((∃ p' g, process_dungeon_selection p d progress now = .entered p' g) ↔
      (onCooldown progress d now = false ∧ d.energy_cost ≤ p.energy)) ∧
    (∀ pr t, pr.last_attempt = some t →
      (onCooldown (some pr) d now = false ↔ t + d.cooldown * 3600 ≤ now)) ∧
    (∀ p' g, process_dungeon_selection p d progress now = .entered p' g →
      p'.energy = p.energy - d.energy_cost ∧
      g.last_attempt = some now ∧
      g.current_progress = some
        { current_room := 0, monsters_defeated := 0, hp_remaining := p.health,
          start_time := now }) ∧
    (onCooldown progress d now = true →
      process_dungeon_selection p d progress now = .rejectedCooldown p progress) ∧
    (onCooldown progress d now = false → p.energy < d.energy_cost →
      process_dungeon_selection p d progress now = .rejectedEnergy p progress) := by
  refine ⟨?_, ?_, ?_, ?_, ?_⟩
  · constructor
    · rintro ⟨p', g, hpg⟩
      unfold process_dungeon_selection at hpg
      split_ifs at hpg with h1 h2
      exact ⟨by simp [h1], by omega⟩
    · rintro ⟨h1, h2⟩
      unfold process_dungeon_selection
      rw [if_neg (by simp [h1]), if_neg (by omega)]
      exact ⟨_, _, rfl⟩
  · intro pr t ht
    unfold onCooldown
    dsimp only
    rw [ht]
    dsimp only
    constructor
    · intro h
      have := of_decide_eq_false h
      linarith
    · intro h
      exact decide_eq_false (by linarith)
  · intro p' g hpg
    unfold process_dungeon_selection at hpg
    split_ifs at hpg with h1 h2
    rcases progress with _ | pr <;>
      · dsimp only at hpg
        injection hpg with hp hg
        rw [← hp, ← hg]
        exact ⟨rfl, rfl, rfl⟩
  · intro h1
    unfold process_dungeon_selection
    rw [if_pos h1]
  · intro h1 h2
    unfold process_dungeon_selection
    rw [if_neg (by simp [h1]), if_pos h2]

/-- Witness for C6: at `now = 1000` (inside the 3600-second cooldown)
the attempt is rejected with the snapshot unchanged; at `now = 4000`
the entry is granted. -/
theorem C6_dungeon_entry_gates_witness :
    process_dungeon_selection pFresh dSmall (some prAttempted) 1000
      = DungeonEntry.rejectedCooldown pFresh (some prAttempted) ∧
    (∃ p' g, process_dungeon_selection pFresh dSmall (some prAttempted) 4000
      = DungeonEntry.entered p' g) := by
  constructor
  · exact (C6_dungeon_entry_gates pFresh dSmall (some prAttempted) 1000).2.2.2.1
      (by norm_num [onCooldown, prAttempted, dSmall])
  · exact ((C6_dungeon_entry_gates pFresh dSmall (some prAttempted) 4000).1).mpr
      ⟨by norm_num [onCooldown, prAttempted, dSmall], by norm_num [dSmall, pFresh]⟩

/-- C3 (code bug): rejected operations are not all-or-nothing.  With
enough energy, an inventory holding 5 of material 1 and none of
material 2, `create_item` debits material 1 to 4 and only then
discovers material 2 is missing: the rejection returns with the
inventory already mutated (`[(1, 4)]`, not the input `[(1, 5)]`).  The
final conjunct shows the cited PvP energy gate does satisfy the claim:
rejection happens before the 20-energy debit. -/
theorem C3_create_item_rejection_mutates_inventory :
    create_item pFresh rTwoMats [(1, 5)]
      = CraftResult.insufficientMaterials pFresh [(1, 4)] ∧
    [(1, 4)] ≠ ([(1, 5)] : List (ℕ × ℕ)) ∧
    process_pvp_attack 19 sNimble sNimble rng0 = PvpResult.rejected 19 := by
  refine ⟨?_, by decide, ?_⟩
  · rfl
  · rfl

/-- Witness for the amended C2 at concrete inputs: one round of each
of `battle_calculation`, `dungeon_battle` and PvP. -/
theorem C2_amended_witness :
    (battleRound sNimble mPlain rng0
        { player_hp := 50, monster_hp := 100, next := 0 }).monster_hp
      = 100 - hitDamage sNimble.damage (mPlain.defense : ℚ) (rng0 0)
          sNimble.critical_chance ∧
    (battleRound sNimble mPlain rng0
        { player_hp := 50, monster_hp := 100, next := 0 }).player_hp = 50 ∧
    (dungeonRound sNimble mPlain rng0
        { player_hp := 50, monster_hp := 100, next := 0 }).monster_hp
      = 100 - hitDamage sNimble.damage (mPlain.defense : ℚ) (rng0 0)
          sNimble.critical_chance ∧
    (dungeonRound sNimble mPlain rng0
        { player_hp := 50, monster_hp := 100, next := 0 }).player_hp = 50 ∧
    (pvpRound sNimble sNimble rng0
        { player_hp := 50, opponent_hp := 50, next := 0 }).opponent_hp = 50 := by
  obtain ⟨h1, h2, _, _, h5, h6, _, _, h9, _, _, _, _⟩ :=
    C2_amended_dodge_and_counter_rules sNimble sNimble sNimble mPlain rng0
      { player_hp := 50, monster_hp := 100, next := 0 }
      { player_hp := 50, opponent_hp := 50, next := 0 }
  refine ⟨h1, ?_, h5, ?_, ?_⟩
  · exact h2 (by norm_num [hitDamage, baseDamage, floorHalf, sNimble, mPlain, rng0])
      (by norm_num [sNimble, rng0])
  · exact h6 (by norm_num [hitDamage, baseDamage, floorHalf, sNimble, mPlain, rng0])
      (by norm_num [sNimble, rng0])
  · exact h9 (by norm_num [sNimble, rng0])
